import Mathlib

/-!
Verification development for the client-side remote-object mirror and
command dispatcher of `src/tools/pw-cli.c`.

The embedding is shallow: each C function that the claims mention is
translated into a Lean function over explicit state values.

Modelling conventions, used throughout:
* `pw_map` (the library's sparse id-indexed map, `pipewire/map.h`, not under
  `src/`) is modelled as a list of optional entries: index = id, `none` = an
  empty (NULL / free) slot.  `pw_map_for_each` passes NULL-data items to the
  callback and skips free items; both kinds of empty slot are `none` here,
  which is observationally equal because every callback in `pw-cli.c`
  (`print_global`, `do_global_info_all`, `destroy_global`) returns without
  effect on a NULL argument.
* stdout is modelled as a `List String` of printed chunks returned next to
  the new state.
* heap mutation of a `struct global` that is stored in the globals map is
  modelled by writing the updated record back at its index.
-/

namespace PwCli

/-- Model of the library `pw_map`: a growable array of slots; a slot holds
either data (`some`) or is empty/free (`none`). -/
abbrev PwMap (α : Type) : Type := List (Option α)

/-- Modelled from the spec: `pw_map_get_size` returns the number of
allocated slots (the id range seen so far). -/
def pw_map_get_size (m : PwMap α) : Nat := m.length

/-- Modelled from the spec: `pw_map_lookup` returns the data stored at `id`,
or nothing when the slot is out of range or empty. -/
def pw_map_lookup (m : PwMap α) (id : Nat) : Option α := (m[id]?).join

/-- Modelled from the spec: `pw_map_insert_at` stores `d` at `id`, growing
the array by one when `id` equals the current size; an id beyond that is
rejected (the registry never produces one, it backfills first). -/
def pw_map_insert_at (m : PwMap α) (id : Nat) (d : Option α) : PwMap α :=
  if id = m.length then m ++ [d]
  else if id < m.length then m.set id d
  else m

/-- Modelled from the spec: `pw_map_remove` frees the slot at `id`. -/
def pw_map_remove (m : PwMap α) (id : Nat) : PwMap α := m.set id none

/-- Modelled from the spec: index that `pw_map_insert_new` assigns — a free
slot if one exists, else the end of the array (handles are never reused
while referenced). -/
def pw_map_next_idx (m : PwMap α) : Nat :=
  match (List.range m.length).find? (fun i => (pw_map_lookup m i).isNone) with
  | some i => i
  | none => m.length

/-- Modelled from the spec: `pw_map_insert_new` stores `d` at a free
client-assigned index and returns that index with the new map. -/
def pw_map_insert_new (m : PwMap α) (d : α) : Nat × PwMap α :=
  let i := pw_map_next_idx m
  (i, pw_map_insert_at m i (some d))

/-- Model of `pw_map_for_each` for output-producing callbacks: the callback
receives the data pointer of every slot (NULL for placeholders) and the
produced chunks are concatenated in index order. -/
def pw_map_for_each_out (m : PwMap α) (f : Option α → List β) : List β :=
  (m.map f).flatten

/-- Property dictionary: ordered key to value mapping (`pw_properties`). -/
abbrev Props : Type := List (String × String)

/-- `struct global` of pw-cli: one object announced by the service.
`proxy` holds the id of the bound proxy, when bound. -/
structure Global where
  id : Nat
  permissions : Nat
  version : Nat
  type : String
  proxy : Option Nat
  info_pending : Bool
  properties : Option Props
deriving DecidableEq

/-- The eleven object kinds of the bind dispatch table. -/
inductive ObjectKind where
  | core
  | module
  | device
  | node
  | port
  | factory
  | client
  | link
  | session
  | endpoint
  | endpointStream
deriving DecidableEq

/-- Per-proxy client data (`struct proxy_data`): back reference to the
global's id and the kind whose event-set/destructor/render it uses. -/
structure ProxyData where
  global : Option Nat
  kind : ObjectKind
deriving DecidableEq

/-- `struct remote_data`: one connection with its registry of globals, its
bound proxies and the recorded barrier sequence number. -/
structure RemoteData where
  id : Nat
  name : Option String
  prompt_pending : Int
  globals : PwMap Global
  proxies : PwMap ProxyData
deriving DecidableEq

def PW_TYPE_INTERFACE_Core : String := "PipeWire:Interface:Core"
def PW_TYPE_INTERFACE_Module : String := "PipeWire:Interface:Module"
def PW_TYPE_INTERFACE_Device : String := "PipeWire:Interface:Device"
def PW_TYPE_INTERFACE_Node : String := "PipeWire:Interface:Node"
def PW_TYPE_INTERFACE_Port : String := "PipeWire:Interface:Port"
def PW_TYPE_INTERFACE_Factory : String := "PipeWire:Interface:Factory"
def PW_TYPE_INTERFACE_Client : String := "PipeWire:Interface:Client"
def PW_TYPE_INTERFACE_Link : String := "PipeWire:Interface:Link"
def PW_TYPE_INTERFACE_Session : String := "PipeWire:Interface:Session"
def PW_TYPE_INTERFACE_Endpoint : String := "PipeWire:Interface:Endpoint"
def PW_TYPE_INTERFACE_EndpointStream : String := "PipeWire:Interface:EndpointStream"

/-- The eleven supported type names, in the order `bind_global` tests them. -/
def supportedTypes : List String :=
  [PW_TYPE_INTERFACE_Core, PW_TYPE_INTERFACE_Module, PW_TYPE_INTERFACE_Device,
   PW_TYPE_INTERFACE_Node, PW_TYPE_INTERFACE_Port, PW_TYPE_INTERFACE_Factory,
   PW_TYPE_INTERFACE_Client, PW_TYPE_INTERFACE_Link, PW_TYPE_INTERFACE_Session,
   PW_TYPE_INTERFACE_Endpoint, PW_TYPE_INTERFACE_EndpointStream]

/-- The strcmp chain of `bind_global` that selects the event set, version,
destructor and render function for a type name; `none` is the final `else`
branch (unsupported type). -/
def bindLookup (type : String) : Option ObjectKind :=
  if type = PW_TYPE_INTERFACE_Core then some ObjectKind.core
  else if type = PW_TYPE_INTERFACE_Module then some ObjectKind.module
  else if type = PW_TYPE_INTERFACE_Device then some ObjectKind.device
  else if type = PW_TYPE_INTERFACE_Node then some ObjectKind.node
  else if type = PW_TYPE_INTERFACE_Port then some ObjectKind.port
  else if type = PW_TYPE_INTERFACE_Factory then some ObjectKind.factory
  else if type = PW_TYPE_INTERFACE_Client then some ObjectKind.client
  else if type = PW_TYPE_INTERFACE_Link then some ObjectKind.link
  else if type = PW_TYPE_INTERFACE_Session then some ObjectKind.session
  else if type = PW_TYPE_INTERFACE_Endpoint then some ObjectKind.endpoint
  else if type = PW_TYPE_INTERFACE_EndpointStream then some ObjectKind.endpointStream
  else none

/-- `bind_global`: dispatch on the type name; on a hit, request the proxy
(`pw_registry_bind`, modelled as allocating the next proxy slot), link
Proxy and Global bidirectionally and store the updated global back; on a
miss, fail with the unsupported-type error and change nothing. -/
def bind_global (rd : RemoteData) (g : Global) :
    Except String (RemoteData × Global) :=
  match bindLookup g.type with
  | none => Except.error ("unsupported type " ++ g.type)
  | some kind =>
    let pd : ProxyData := { global := some g.id, kind := kind }
    let r := pw_map_insert_new rd.proxies pd
    let gNew : Global := { g with proxy := some r.1 }
    Except.ok
      ({ rd with proxies := r.2,
                 globals := pw_map_insert_at rd.globals g.id (some gNew) },
       gNew)

/-- `strstr`-style substring test used by the list-objects filter. -/
def containsSubstr (hay needle : String) : Bool :=
  needle.isEmpty || (hay.splitOn needle).length > 1

/-- One property line of `print_properties` (no header mode). -/
def print_properties_lines (props : Option Props) : List String :=
  match props with
  | none => []
  | some ps => ps.map (fun p => "\t\t" ++ p.1 ++ " = " ++ p.2)

/-- `print_global`: the `pw_map_for_each` callback of list-objects.  A NULL
entry (backfill placeholder) produces nothing; a global whose type does not
contain the filter substring produces nothing; otherwise one id/type line
plus its property lines. -/
def print_global (obj : Option Global) (filter : Option String) : List String :=
  match obj with
  | none => []
  | some g =>
    match filter with
    | some f =>
      if containsSubstr g.type f then
        ("\tid " ++ toString g.id ++ ", type " ++ g.type ++ "/" ++ toString g.version)
          :: print_properties_lines g.properties
      else []
    | none =>
      ("\tid " ++ toString g.id ++ ", type " ++ g.type ++ "/" ++ toString g.version)
        :: print_properties_lines g.properties

/-- `do_list_objects`: for-each over the globals map with `print_global`. -/
def do_list_objects (rd : RemoteData) (filter : Option String) : List String :=
  pw_map_for_each_out rd.globals (fun obj => print_global obj filter)

/-- The globals that the `do_global_info_all` for-each callback acts on: a
NULL entry is skipped (`if (global == NULL) return 0`). -/
def do_global_info_all_visits (obj : Option Global) : List Global :=
  match obj with
  | none => []
  | some g => [g]

/-- The backfill loop of `registry_event_global`:
`while (id > size) pw_map_insert_at(&rd->globals, size++, NULL);`
unrolled as `n` appends of an empty placeholder slot. -/
def backfillAux : Nat → PwMap Global → PwMap Global
  | 0, m => m
  | Nat.succ n, m => backfillAux n (pw_map_insert_at m (pw_map_get_size m) none)

/-- `registry_event_global`: build the new `struct global` (calloc zeroes
`proxy` and `info_pending`), print the added-global report, backfill empty
placeholder slots up to `id`, insert the global at `id`, then immediately
bind it, reporting a bind failure on stdout. -/
def registry_event_global (rd : RemoteData) (id permissions : Nat)
    (type : String) (version : Nat) (props : Option Props) :
    RemoteData × List String :=
  let g : Global :=
    { id := id, permissions := permissions, version := version, type := type,
      proxy := none, info_pending := false, properties := props }
  let out1 := ("remote " ++ toString rd.id ++ " added global: ")
      :: print_global (some g) none
  let size := pw_map_get_size rd.globals
  let m1 := backfillAux (id - size) rd.globals
  let m2 := pw_map_insert_at m1 id (some g)
  let rd1 := { rd with globals := m2 }
  match bind_global rd1 g with
  | Except.error e => (rd1, out1 ++ ["Error: \"" ++ e ++ "\""])
  | Except.ok r => (r.1, out1)

/-- `destroy_global`: remove the global from its registry at its own id
(freeing its memory is implicit in the functional model). -/
def destroy_global (rd : RemoteData) (g : Global) : RemoteData :=
  { rd with globals := pw_map_remove rd.globals g.id }

/-- `registry_event_global_remove`: look the id up; unknown ids only get a
diagnostic line and no state change, known ids are reported and destroyed
immediately. -/
def registry_event_global_remove (rd : RemoteData) (id : Nat) :
    RemoteData × List String :=
  match pw_map_lookup rd.globals id with
  | none =>
    (rd, ["remote " ++ toString rd.id ++ " removed unknown global " ++ toString id])
  | some g =>
    (destroy_global rd g,
     ("remote " ++ toString rd.id ++ " removed global: ") :: print_global (some g) none)

/-- `show_prompt`: print the remote's name followed by the prompt marker. -/
def show_prompt (rd : RemoteData) : List String :=
  [(rd.name.getD ("")) ++ ">>"]

/-- `on_core_done`: redraw the prompt exactly when the completion's
sequence number equals the recorded barrier sequence; nothing else. -/
def on_core_done (rd : RemoteData) (id : Nat) (seq : Int) :
    RemoteData × List String :=
  if seq = rd.prompt_pending then (rd, show_prompt rd) else (rd, [])

/-! ## Info merge engine: session and endpoint snapshots -/

/-- A `spa_param_info` descriptor: parameter id and flags.  The count and
the array are kept atomic as one list. -/
abbrev ParamInfo : Type := Nat × Nat

/-- Modelled from the spec: change-mask bit constants of the
session-manager extension header (`extensions/session-manager.h`, part of
this repository but not under `src/`), as tested by the merge functions. -/
def PW_ENDPOINT_CHANGE_MASK_STREAMS : Nat := 1
def PW_ENDPOINT_CHANGE_MASK_SESSION : Nat := 2
def PW_ENDPOINT_CHANGE_MASK_PROPS : Nat := 4
def PW_ENDPOINT_CHANGE_MASK_PARAMS : Nat := 8

/-- `struct pw_session_info` snapshot. -/
structure SessionInfo where
  id : Nat
  change_mask : Nat
  params : List ParamInfo
  props : Option Props
deriving DecidableEq

/-- `struct pw_endpoint_info` snapshot. -/
structure EndpointInfo where
  id : Nat
  name : Option String
  media_class : Option String
  direction : Nat
  flags : Nat
  change_mask : Nat
  n_streams : Nat
  session_id : Nat
  params : List ParamInfo
  props : Option Props
deriving DecidableEq

/-- `session_event_info` (merge only, without the render-if-pending tail):
allocate a zeroed snapshot seeded with the update's id when none exists,
then replace the parameter list and the property dict wholesale when the
update's change mask carries the bit the code tests for that group. -/
def session_event_info (old : Option SessionInfo) (update : SessionInfo) :
    SessionInfo :=
  let info : SessionInfo :=
    match old with
    | some i => i
    | none => { id := update.id, change_mask := 0, params := [], props := none }
  let info :=
    if update.change_mask &&& PW_ENDPOINT_CHANGE_MASK_PARAMS ≠ 0 then
      { info with params := update.params }
    else info
  let info :=
    if update.change_mask &&& PW_ENDPOINT_CHANGE_MASK_PROPS ≠ 0 then
      { info with props := update.props }
    else info
  info

/-- `endpoint_event_info` (merge only, without the render-if-pending tail):
allocate a snapshot seeded with the update's identity and immutable fields
when none exists, then replace each optional field group (stream count,
session id, parameter list, property dict) wholesale exactly when the
update's change mask carries that group's bit. -/
def endpoint_event_info (old : Option EndpointInfo) (update : EndpointInfo) :
    EndpointInfo :=
  let info : EndpointInfo :=
    match old with
    | some i => i
    | none =>
      { id := update.id, name := update.name, media_class := update.media_class,
        direction := update.direction, flags := update.flags,
        change_mask := 0, n_streams := 0, session_id := 0,
        params := [], props := none }
  let info :=
    if update.change_mask &&& PW_ENDPOINT_CHANGE_MASK_STREAMS ≠ 0 then
      { info with n_streams := update.n_streams }
    else info
  let info :=
    if update.change_mask &&& PW_ENDPOINT_CHANGE_MASK_SESSION ≠ 0 then
      { info with session_id := update.session_id }
    else info
  let info :=
    if update.change_mask &&& PW_ENDPOINT_CHANGE_MASK_PARAMS ≠ 0 then
      { info with params := update.params }
    else info
  let info :=
    if update.change_mask &&& PW_ENDPOINT_CHANGE_MASK_PROPS ≠ 0 then
      { info with props := update.props }
    else info
  info

/-- The `MARK_CHANGE(f)` macro: a star when the snapshot's change mask
intersects the literal mask `f`, else a blank. -/
def MARK_CHANGE (mask f : Nat) : String :=
  if mask &&& f ≠ 0 then "*" else " "

/-- `info_endpoint`: render the endpoint snapshot (kind-specific lines with
change markers, using the literal marks 0,1,2,3 of the source) and clear
the change mask afterwards. -/
def info_endpoint (info : EndpointInfo) : EndpointInfo × List String :=
  let direction :=
    if info.direction = 1 then "source"
    else if info.direction = 0 then "sink"
    else "invalid"
  let lines :=
    [ "\tname: " ++ (info.name.getD ("")),
      "\tmedia-class: " ++ (info.media_class.getD ("")),
      "\tdirection: " ++ direction,
      "\tflags: " ++ toString info.flags,
      MARK_CHANGE info.change_mask 0 ++ "\tstreams: " ++ toString info.n_streams,
      MARK_CHANGE info.change_mask 1 ++ "\tsession: " ++ toString info.session_id ]
    ++ print_properties_lines info.props
  ({ info with change_mask := 0 }, lines)

/-! ## Connection set, variable table and command handlers -/

/-- One entry of the client's variable table `data->vars`: the table maps
small handles to arbitrary local objects — connections, loaded modules or
ad-hoc proxies (the payload is the object's identifying number). -/
inductive VarEntry where
  | remote (rid : Nat)
  | module (mid : Nat)
  | proxyVar (objId : Nat)
deriving DecidableEq

/-- `struct data`: ordered connection list (tail = most recently used),
the nullable current connection and the variable table.  A connection is
denoted by its variable-table handle (`rd->id`). -/
structure ConnState where
  remotes : List Nat
  current : Option Nat
  vars : PwMap VarEntry
deriving DecidableEq

/-- Accumulate the value of a leading run of decimal digits. -/
def digitsToNat : List Char → Nat → Nat
  | [], acc => acc
  | c :: rest, acc =>
    if c.isDigit then digitsToNat rest (acc * 10 + (c.toNat - 48)) else acc

/-- C `atoi` restricted to the decimal tokens the commands receive: the
value of the leading digit run, 0 when there is none. -/
def atoi (s : String) : Nat := digitsToNat s.data 0

/-- `on_core_destroy`: the core-proxy destroy handler removes the
connection from the connection list and the variable table and clears
`current` when the destroyed connection was current. -/
def on_core_destroy (st : ConnState) (rid : Nat) : ConnState :=
  { remotes := st.remotes.erase rid,
    vars := pw_map_remove st.vars rid,
    current := if st.current = some rid then none else st.current }

/-- `pw_core_disconnect` followed by the current-pointer repair in
`do_disconnect`: tearing the core down fires `on_core_destroy`
synchronously; afterwards, when `current` is gone, promote the most
recently used survivor (tail of the list), or leave it `None` when the
set emptied. -/
def disconnect_core (st : ConnState) (rid : Nat) : ConnState :=
  let st1 := on_core_destroy st rid
  if st1.current = none then
    match st1.remotes.getLast? with
    | none => st1
    | some r => { st1 with current := some r }
  else st1

/-- `do_disconnect` over the tokenized argument list.  With no argument it
uses `data->current` without any check — `none` is the NULL dereference.
With an argument it resolves the handle in the variable table, failing when
absent; a handle bound to a non-connection object is used as a
`remote_data` without a type check, which is undefined behaviour
(`none`). -/
def do_disconnect (st : ConnState) (args : List String) :
    Option (Except String ConnState) :=
  match args with
  | [] =>
    match st.current with
    | none => none
    | some rid => some (Except.ok (disconnect_core st rid))
  | tok :: _ =>
    let idx := atoi tok
    match pw_map_lookup st.vars idx with
    | none => some (Except.error ("Remote " ++ toString idx ++ " does not exist"))
    | some (VarEntry.remote rid) => some (Except.ok (disconnect_core st rid))
    | some _ => none

/-- `do_switch_remote`: default handle 0, resolve in the variable table
(fail when absent), move the connection to the most-recently-used tail and
make it current.  No type check: a handle bound to a non-connection object
is dereferenced as a `remote_data`, which is undefined behaviour
(`none`). -/
def do_switch_remote (st : ConnState) (args : List String) :
    Option (Except String ConnState) :=
  let idx := atoi (args.getD 0 (""))
  match pw_map_lookup st.vars idx with
  | none => some (Except.error ("Remote " ++ toString idx ++ " does not exist"))
  | some (VarEntry.remote rid) =>
    some (Except.ok
      { st with remotes := st.remotes.erase rid ++ [rid], current := some rid })
  | some _ => none

/-- `do_connect` (success path; `pw_context_connect` is a library primitive
assumed to succeed): register the new connection in the variable table,
append it to the connection list and make it current. -/
def do_connect (st : ConnState) : ConnState :=
  let rid := pw_map_next_idx st.vars
  { remotes := st.remotes ++ [rid],
    current := some rid,
    vars := pw_map_insert_at st.vars rid (some (VarEntry.remote rid)) }

/-- The connection-set invariant: `current` is `None` or a member of the
connection list. -/
def currentOk (st : ConnState) : Bool :=
  match st.current with
  | none => true
  | some r => decide (r ∈ st.remotes)

/-- `pw_properties_set`: replace the value of an existing key, else append
the pair. -/
def props_set (ps : Props) (k v : String) : Props :=
  if ps.any (fun p => p.1 = k) then
    ps.map (fun p => if p.1 = k then (k, v) else p)
  else ps ++ [(k, v)]

/-- One step of `parse_props`: split a token on the first equals sign
(`pw_split_ip(s, "=", 2, p)` keeps the remainder in the second token). -/
def splitKeyValue (tok : String) : Option (String × String) :=
  match tok.splitOn ("=") with
  | [] => none
  | [_] => none
  | k :: rest => some (k, String.intercalate ("=") rest)

/-- `parse_props`: walk the whitespace-separated tokens and collect every
`key=value` token into a property dict; tokens without an equals sign are
dropped; no token at all yields NULL. -/
def parse_props (s : String) : Option Props :=
  let toks := (s.split (fun c => c = ' ' ∨ c = '\t')).filter (fun t => ¬ t.isEmpty)
  let ps := toks.foldl
    (fun acc tok =>
      match splitKeyValue tok with
      | none => acc
      | some kv =>
        match acc with
        | none => some [kv]
        | some l => some (props_set l kv.1 kv.2))
    none
  ps

/-- `do_permissions` over the tokenized argument list: arity check, resolve
the client id in the globals registry (fail when unknown), reject non-Client
globals, bind lazily when unbound, then issue the remote
`pw_client_update_permissions` call (fire-and-forget, no local state
change beyond the lazy bind). -/
def do_permissions (rd : RemoteData) (a : List String) :
    Except String RemoteData :=
  if a.length < 3 then
    Except.error ("permissions <client-id> <object> <permission>")
  else
    let id := atoi (a.getD 0 (""))
    match pw_map_lookup rd.globals id with
    | none => Except.error ("permissions: unknown global " ++ toString id)
    | some g =>
      if g.type ≠ PW_TYPE_INTERFACE_Client then
        Except.error ("object " ++ toString id ++ " is not a client")
      else
        match (if g.proxy = none then bind_global rd g
               else Except.ok (rd, g)) with
        | Except.error e => Except.error e
        | Except.ok r => Except.ok r.1

/-- `do_get_permissions` over the tokenized argument list: arity check,
resolve the client id (fail when unknown), reject non-Client globals, bind
lazily, then issue the remote `pw_client_get_permissions` call. -/
def do_get_permissions (rd : RemoteData) (a : List String) :
    Except String RemoteData :=
  if a.length < 1 then
    Except.error ("get-permissions <client-id>")
  else
    let id := atoi (a.getD 0 (""))
    match pw_map_lookup rd.globals id with
    | none => Except.error ("get-permissions: unknown global " ++ toString id)
    | some g =>
      if g.type ≠ PW_TYPE_INTERFACE_Client then
        Except.error ("object " ++ toString id ++ " is not a client")
      else
        match (if g.proxy = none then bind_global rd g
               else Except.ok (rd, g)) with
        | Except.error e => Except.error e
        | Except.ok r => Except.ok r.1

/-- Modelled from the spec: the object-creating primitive
(`pw_core_create_object` and `pw_proxy_get_id`, library code not under
`src/`) yields, against a working `create` primitive, a proxy for a created
object with a service-assigned id; the id is a parameter here. -/
def create_object_result (newObjId : Nat) : VarEntry :=
  VarEntry.proxyVar newObjId

/-- `do_create_node` over the tokenized argument list: arity check, parse
optional properties, issue the create against the node factory and print
the fresh variable handle together with the created object's id. -/
def do_create_node (st : ConnState) (a : List String) (newObjId : Nat) :
    Except String (ConnState × String) :=
  if a.length < 1 then
    Except.error ("create-node <factory-name> [<properties>]")
  else
    let _props := if a.length = 2 then parse_props (a.getD 1 ("")) else none
    let r := pw_map_insert_new st.vars (create_object_result newObjId)
    Except.ok
      ({ st with vars := r.2 },
       toString r.1 ++ " = @proxy:" ++ toString newObjId)

/-- `do_create_device`: same shape as `do_create_node` against the device
factory. -/
def do_create_device (st : ConnState) (a : List String) (newObjId : Nat) :
    Except String (ConnState × String) :=
  if a.length < 1 then
    Except.error ("create-device <factory-name> [<properties>]")
  else
    let _props := if a.length = 2 then parse_props (a.getD 1 ("")) else none
    let r := pw_map_insert_new st.vars (create_object_result newObjId)
    Except.ok
      ({ st with vars := r.2 },
       toString r.1 ++ " = @proxy:" ++ toString newObjId)

/-- `do_create_link`: arity of four node/port ids, build the link
properties (parsed properties or a fresh dict, plus the four link keys),
create against the link factory and print the fresh handle and the created
object's id. -/
def do_create_link (st : ConnState) (a : List String) (newObjId : Nat) :
    Except String (ConnState × String) :=
  if a.length < 4 then
    Except.error ("create-link <node-id> <port> <node-id> <port> [<properties>]")
  else
    let props0 := if a.length = 5 then (parse_props (a.getD 4 (""))).getD [] else []
    let props1 := props_set props0 ("link.output.node") (a.getD 0 (""))
    let props2 := props_set props1 ("link.output.port") (a.getD 1 (""))
    let props3 := props_set props2 ("link.input.node") (a.getD 2 (""))
    let _props := props_set props3 ("link.input.port") (a.getD 3 (""))
    let r := pw_map_insert_new st.vars (create_object_result newObjId)
    Except.ok
      ({ st with vars := r.2 },
       toString r.1 ++ " = @proxy:" ++ toString newObjId)

/-- The dispatcher's handling of a handler result (`do_input`): a failing
handler prints the quoted error and leaves the state with the caller; a
successful one yields the new state and its printed line. -/
def report (st : ConnState) (r : Except String (ConnState × String)) :
    ConnState × List String :=
  match r with
  | Except.error e => (st, ["Error: \"" ++ e ++ "\""])
  | Except.ok p => (p.1, [p.2])

/-! ## Registry event sequences -/

/-- One registry notification. -/
inductive RegEvent where
  | add (id permissions : Nat) (type : String) (version : Nat) (props : Option Props)
  | remove (id : Nat)

/-- Dispatch one registry notification into its handler (state part). -/
def applyEvent (rd : RemoteData) (e : RegEvent) : RemoteData :=
  match e with
  | RegEvent.add id p t v props => (registry_event_global rd id p t v props).1
  | RegEvent.remove id => (registry_event_global_remove rd id).1

/-- A fresh connection: `pw_map_init` leaves the globals map empty. -/
def rdInit : RemoteData :=
  { id := 0, name := none, prompt_pending := 0, globals := [], proxies := [] }

/-- Process a notification sequence on a fresh connection. -/
def applyEvents (es : List RegEvent) : RemoteData := es.foldl applyEvent rdInit

/-- Liveness read off a reversed notification sequence: the most recent
notification about `id` decides. -/
def liveRev : List RegEvent → Nat → Bool
  | [], _ => false
  | RegEvent.add i _ _ _ _ :: rest, id => if id = i then true else liveRev rest id
  | RegEvent.remove i :: rest, id => if id = i then false else liveRev rest id

/-- The specification predicate: an add for `id` has been observed with no
later remove for `id`. -/
def observedLive (es : List RegEvent) (id : Nat) : Bool := liveRev es.reverse id

/-- Registry well-formedness: a stored global records the index it is
stored at. -/
def WellIndexed (m : PwMap Global) : Prop :=
  ∀ j g, pw_map_lookup m j = some g → g.id = j

/-! ## Lemmas about the map model -/

theorem pw_map_lookup_eq_none_of_len_le (m : PwMap α) (id : Nat)
    (h : m.length ≤ id) : pw_map_lookup m id = none := by
  simp [pw_map_lookup, List.getElem?_eq_none h]

theorem pw_map_lookup_insert_at_self (m : PwMap α) (id : Nat) (d : Option α)
    (h : id ≤ m.length) : pw_map_lookup (pw_map_insert_at m id d) id = d := by
  unfold pw_map_insert_at pw_map_lookup
  rcases Nat.lt_or_ge id m.length with h1 | h1
  · rw [if_neg (Nat.ne_of_lt h1), if_pos h1, List.getElem?_set_self h1]
    rfl
  · have h2 : id = m.length := Nat.le_antisymm h h1
    rw [if_pos h2, h2, List.getElem?_concat_length]
    rfl

theorem pw_map_lookup_insert_at_ne (m : PwMap α) (id : Nat) (d : Option α)
    (j : Nat) (hj : j ≠ id) :
    pw_map_lookup (pw_map_insert_at m id d) j = pw_map_lookup m j := by
  unfold pw_map_insert_at pw_map_lookup
  by_cases h1 : id = m.length
  · rw [if_pos h1]
    by_cases h2 : j < m.length
    · rw [List.getElem?_append_left h2]
    · have h3 : m.length ≤ j := Nat.le_of_not_lt h2
      have h4 : m.length + 1 ≤ j := by
        rcases Nat.lt_or_ge m.length j with h5 | h5
        · exact h5
        · exact absurd (Nat.le_antisymm h5 h3) (by
            intro h6
            exact hj (h6.symm ▸ h1.symm))
      rw [List.getElem?_eq_none h3, List.getElem?_eq_none (by simpa using h4)]
  · rw [if_neg h1]
    by_cases h2 : id < m.length
    · rw [if_pos h2, List.getElem?_set_ne (fun h => hj h.symm)]
    · rw [if_neg h2]

theorem le_length_insert_at (m : PwMap α) (id : Nat) (d : Option α)
    (h : id ≤ m.length) : id ≤ (pw_map_insert_at m id d).length := by
  unfold pw_map_insert_at
  by_cases h1 : id = m.length
  · rw [if_pos h1]
    simp
    omega
  · rw [if_neg h1, if_pos (Nat.lt_of_le_of_ne h h1)]
    simpa using h

theorem pw_map_lookup_remove_self (m : PwMap α) (id : Nat) :
    pw_map_lookup (pw_map_remove m id) id = none := by
  unfold pw_map_remove pw_map_lookup
  by_cases h : id < m.length
  · rw [List.getElem?_set_self h]
    rfl
  · rw [List.getElem?_eq_none (by simpa using Nat.le_of_not_lt h)]
    rfl

theorem pw_map_lookup_remove_ne (m : PwMap α) (id j : Nat) (hj : j ≠ id) :
    pw_map_lookup (pw_map_remove m id) j = pw_map_lookup m j := by
  unfold pw_map_remove pw_map_lookup
  rw [List.getElem?_set_ne (fun h => hj h.symm)]

theorem backfillAux_eq (n : Nat) (m : PwMap Global) :
    backfillAux n m = m ++ List.replicate n none := by
  induction n generalizing m with
  | zero => simp [backfillAux]
  | succ k ih =>
    rw [backfillAux, pw_map_get_size, pw_map_insert_at, if_pos rfl, ih]
    simp [List.replicate_succ]

theorem pw_map_lookup_append_replicate (m : PwMap α) (n : Nat) (j : Nat) :
    pw_map_lookup (m ++ List.replicate n none) j = pw_map_lookup m j := by
  unfold pw_map_lookup
  by_cases h : j < m.length
  · rw [List.getElem?_append_left h]
  · have h1 : m.length ≤ j := Nat.le_of_not_lt h
    rw [List.getElem?_append_right h1, List.getElem?_eq_none h1,
        List.getElem?_replicate]
    by_cases h2 : j - m.length < n
    · rw [if_pos h2]
      rfl
    · rw [if_neg h2]

theorem set_append_last (l : List α) (a b : α) :
    (l ++ [a]).set l.length b = l ++ [b] := by
  induction l with
  | nil => rfl
  | cons x xs ih => simp [ih]

/-! ## Lemmas about the registry event handlers -/

theorem reg_add_lookup_self (rd : RemoteData) (id p : Nat) (t : String)
    (v : Nat) (props : Option Props) :
    ∃ g, pw_map_lookup (registry_event_global rd id p t v props).1.globals id
        = some g ∧ g.id = id := by
  simp only [registry_event_global, backfillAux_eq, pw_map_get_size]
  have hle : id ≤ (rd.globals ++ List.replicate (id - rd.globals.length)
      (none : Option Global)).length := by
    simp only [List.length_append, List.length_replicate]
    omega
  cases hb : bindLookup t with
  | none =>
    simp only [bind_global, hb]
    exact ⟨_, pw_map_lookup_insert_at_self _ _ _ hle, rfl⟩
  | some kind =>
    simp only [bind_global, hb]
    exact ⟨_, pw_map_lookup_insert_at_self _ _ _
      (le_length_insert_at _ _ _ hle), rfl⟩

theorem reg_add_lookup_ne (rd : RemoteData) (id p : Nat) (t : String)
    (v : Nat) (props : Option Props) (j : Nat) (hj : j ≠ id) :
    pw_map_lookup (registry_event_global rd id p t v props).1.globals j
      = pw_map_lookup rd.globals j := by
  simp only [registry_event_global, backfillAux_eq, pw_map_get_size]
  cases hb : bindLookup t with
  | none =>
    simp only [bind_global, hb]
    rw [pw_map_lookup_insert_at_ne _ _ _ _ hj, pw_map_lookup_append_replicate]
  | some kind =>
    simp only [bind_global, hb]
    rw [pw_map_lookup_insert_at_ne _ _ _ _ hj,
        pw_map_lookup_insert_at_ne _ _ _ _ hj, pw_map_lookup_append_replicate]

theorem reg_remove_lookup_self (rd : RemoteData) (id : Nat)
    (hW : WellIndexed rd.globals) :
    pw_map_lookup (registry_event_global_remove rd id).1.globals id = none := by
  unfold registry_event_global_remove
  cases hl : pw_map_lookup rd.globals id with
  | none => simpa using hl
  | some g =>
    have hid : g.id = id := hW id g hl
    simp only [destroy_global]
    rw [hid]
    exact pw_map_lookup_remove_self _ _

theorem reg_remove_lookup_ne (rd : RemoteData) (id j : Nat) (hj : j ≠ id)
    (hW : WellIndexed rd.globals) :
    pw_map_lookup (registry_event_global_remove rd id).1.globals j
      = pw_map_lookup rd.globals j := by
  unfold registry_event_global_remove
  cases hl : pw_map_lookup rd.globals id with
  | none => rfl
  | some g =>
    have hid : g.id = id := hW id g hl
    simp only [destroy_global]
    rw [hid]
    exact pw_map_lookup_remove_ne _ _ _ hj

theorem wellIndexed_applyEvent (rd : RemoteData) (e : RegEvent)
    (hW : WellIndexed rd.globals) : WellIndexed (applyEvent rd e).globals := by
  cases e with
  | add id p t v props =>
    intro j g hg
    by_cases hj : j = id
    · subst hj
      obtain ⟨g1, hg1, hid⟩ := reg_add_lookup_self rd j p t v props
      rw [applyEvent] at hg
      rw [hg1] at hg
      cases hg
      exact hid
    · rw [applyEvent, reg_add_lookup_ne rd id p t v props j hj] at hg
      exact hW j g hg
  | remove id =>
    intro j g hg
    by_cases hj : j = id
    · subst hj
      rw [applyEvent, reg_remove_lookup_self rd j hW] at hg
      cases hg
    · rw [applyEvent, reg_remove_lookup_ne rd id j hj hW] at hg
      exact hW j g hg

theorem observedLive_snoc_add (es : List RegEvent) (id p : Nat) (t : String)
    (v : Nat) (props : Option Props) (j : Nat) :
    observedLive (es ++ [RegEvent.add id p t v props]) j
      = if j = id then true else observedLive es j := by
  simp [observedLive, liveRev]

theorem observedLive_snoc_remove (es : List RegEvent) (id j : Nat) :
    observedLive (es ++ [RegEvent.remove id]) j
      = if j = id then false else observedLive es j := by
  simp [observedLive, liveRev]

theorem applyEvents_snoc (es : List RegEvent) (e : RegEvent) :
    applyEvents (es ++ [e]) = applyEvent (applyEvents es) e := by
  simp [applyEvents]

theorem applyEvents_invariant (es : List RegEvent) :
    WellIndexed (applyEvents es).globals
    ∧ ∀ id, (pw_map_lookup (applyEvents es).globals id).isSome
        = observedLive es id := by
  induction es using List.reverseRecOn with
  | nil =>
    constructor
    · intro j g hg
      simp [applyEvents, rdInit, pw_map_lookup] at hg
    · intro id
      simp [applyEvents, rdInit, pw_map_lookup, observedLive, liveRev]
  | append_singleton es e ih =>
    rw [applyEvents_snoc]
    refine ⟨wellIndexed_applyEvent _ e ih.1, ?_⟩
    intro id
    cases e with
    | add i p t v props =>
      rw [observedLive_snoc_add]
      by_cases hj : id = i
      · subst hj
        obtain ⟨g1, hg1, _⟩ := reg_add_lookup_self (applyEvents es) id p t v props
        rw [applyEvent, hg1]
        simp
      · rw [applyEvent, reg_add_lookup_ne _ _ _ _ _ _ _ hj, if_neg hj]
        exact ih.2 id
    | remove i =>
      rw [observedLive_snoc_remove]
      by_cases hj : id = i
      · subst hj
        rw [applyEvent, reg_remove_lookup_self _ _ ih.1]
        simp
      · rw [applyEvent, reg_remove_lookup_ne _ _ _ hj ih.1, if_neg hj]
        exact ih.2 id

theorem insert_at_length_eq (M : PwMap α) (d : Option α) (id : Nat)
    (h : M.length = id) : pw_map_insert_at M id d = M ++ [d] := by
  subst h
  simp [pw_map_insert_at]

theorem insert_at_append_self (M : PwMap α) (a b : Option α) (id : Nat)
    (h : M.length = id) : pw_map_insert_at (M ++ [a]) id b = M ++ [b] := by
  subst h
  rw [pw_map_insert_at, if_neg (by simp), if_pos (by simp), set_append_last]

theorem registry_event_global_struct (rd : RemoteData) (id p : Nat)
    (t : String) (v : Nat) (props : Option Props)
    (h : pw_map_get_size rd.globals < id) :
    ∃ g : Global,
      (registry_event_global rd id p t v props).1.globals
        = rd.globals
            ++ List.replicate (id - rd.globals.length) (none : Option Global)
            ++ [some g]
        ∧ g.id = id := by
  have hlen : (rd.globals ++ List.replicate (id - rd.globals.length)
      (none : Option Global)).length = id := by
    have h1 : rd.globals.length < id := h
    simp only [List.length_append, List.length_replicate]
    omega
  simp only [registry_event_global, backfillAux_eq, pw_map_get_size]
  cases hb : bindLookup t with
  | none =>
    simp only [bind_global, hb]
    exact ⟨_, insert_at_length_eq _ _ _ hlen, rfl⟩
  | some kind =>
    simp only [bind_global, hb]
    rw [insert_at_length_eq _ _ _ hlen, insert_at_append_self _ _ _ _ hlen]
    exact ⟨_, rfl, rfl⟩

/-! ## Claim theorems -/

/-- C1: an add-notification whose id is beyond the current size of the
globals map first backfills every index from the old size up to `id - 1`
with an empty placeholder slot and then stores the new Global at `id`;
placeholders hold no Global (they are `some none` slots, distinguishable
from `some (some g)`), and both `for_each` traversals — list-objects
printing and the info-all visit — skip them, so the new traversal output is
exactly the old output plus the new Global's contribution. -/
theorem c1_backfill_placeholders (rd : RemoteData) (id p : Nat) (t : String)
    (v : Nat) (props : Option Props)
    (h : pw_map_get_size rd.globals < id) :
    ∃ g : Global,
      g.id = id
      ∧ pw_map_lookup (registry_event_global rd id p t v props).1.globals id
          = some g
      ∧ (∀ j, pw_map_get_size rd.globals ≤ j → j < id →
          ((registry_event_global rd id p t v props).1.globals)[j]?
            = some none)
      ∧ (∀ filter, do_list_objects (registry_event_global rd id p t v props).1 filter
          = do_list_objects rd filter ++ print_global (some g) filter)
      ∧ pw_map_for_each_out (registry_event_global rd id p t v props).1.globals
            do_global_info_all_visits
          = pw_map_for_each_out rd.globals do_global_info_all_visits ++ [g]
      ∧ (∀ filter, print_global none filter = ([] : List String))
      ∧ do_global_info_all_visits none = ([] : List Global) := by
  obtain ⟨g, hst, hid⟩ := registry_event_global_struct rd id p t v props h
  have hlen : (rd.globals ++ List.replicate (id - rd.globals.length)
      (none : Option Global)).length = id := by
    have h1 : rd.globals.length < id := h
    simp only [List.length_append, List.length_replicate]
    omega
  refine ⟨g, hid, ?_, ?_, ?_, ?_, fun filter => rfl, rfl⟩
  · rw [hst]
    unfold pw_map_lookup
    rw [List.getElem?_append_right (by rw [hlen]), hlen]
    simp
  · intro j hj1 hj2
    rw [hst]
    have hjlt : j < (rd.globals ++ List.replicate (id - rd.globals.length)
        (none : Option Global)).length := by rw [hlen]; exact hj2
    rw [List.getElem?_append_left hjlt,
        List.getElem?_append_right (by exact hj1),
        List.getElem?_replicate]
    have : j - rd.globals.length < id - rd.globals.length := by
      have h1 : pw_map_get_size rd.globals ≤ j := hj1
      have h2 : rd.globals.length ≤ j := h1
      omega
    rw [if_pos this]
  · intro filter
    rw [do_list_objects, do_list_objects, hst]
    simp only [pw_map_for_each_out, List.map_append, List.flatten_append,
      List.map_replicate]
    have hnone : print_global (none : Option Global) filter = [] := rfl
    rw [hnone]
    simp
  · rw [hst]
    simp only [pw_map_for_each_out, List.map_append, List.flatten_append,
      List.map_replicate]
    have hnone : do_global_info_all_visits (none : Option Global) = [] := rfl
    rw [hnone]
    simp [do_global_info_all_visits]

/-- C1 witness: adding id 2 to an empty registry creates a placeholder at
index 1 that the list-objects traversal skips. -/
theorem c1_backfill_placeholders_witness :
    ∃ g : Global, g.id = 2
      ∧ pw_map_lookup (registry_event_global rdInit 2 0 ("x") 0 none).1.globals 2
          = some g := by
  obtain ⟨g, h1, h2, _⟩ :=
    c1_backfill_placeholders rdInit 2 0 ("x") 0 none (by decide)
  exact ⟨g, h1, h2⟩

/-- C2: over every sequence of add/remove notifications processed from a
fresh connection, `lookup(id)` returns a Global exactly when an add for
`id` was observed with no later remove for `id`; and a remove-notification
for an id with no live Global only prints the unknown-global diagnostic and
leaves the connection state unchanged. -/
theorem c2_lookup_iff_add_no_remove :
    (∀ es id, (pw_map_lookup (applyEvents es).globals id).isSome
        = observedLive es id)
    ∧ (∀ rd id, pw_map_lookup rd.globals id = none →
        (registry_event_global_remove rd id).1 = rd
        ∧ (registry_event_global_remove rd id).2
            = ["remote " ++ toString rd.id ++ " removed unknown global "
                ++ toString id]) := by
  constructor
  · intro es id
    exact (applyEvents_invariant es).2 id
  · intro rd id h
    unfold registry_event_global_remove
    rw [h]
    exact ⟨rfl, rfl⟩

/-- C2 witness: a remove for id 0 on a fresh connection is a pure
diagnostic. -/
theorem c2_lookup_iff_add_no_remove_witness :
    (registry_event_global_remove rdInit 0).1 = rdInit :=
  (c2_lookup_iff_add_no_remove.2 rdInit 0 rfl).1

/-- C3: merging an update into an existing endpoint or session snapshot
replaces exactly the field groups whose change-mask bit the merge tests
(stream count, session id, parameter list, property dict for endpoints;
parameter list and property dict for sessions), each replaced wholesale
with the update's value, and every other field — including the identity
and immutable scalars — keeps its prior value; in particular a
properties-only mask leaves the parameter list and all scalar fields
untouched. -/
theorem c3_merge_partiality :
    (∀ old update : EndpointInfo,
      (endpoint_event_info (some old) update).n_streams
          = (if update.change_mask &&& PW_ENDPOINT_CHANGE_MASK_STREAMS ≠ 0
             then update.n_streams else old.n_streams)
      ∧ (endpoint_event_info (some old) update).session_id
          = (if update.change_mask &&& PW_ENDPOINT_CHANGE_MASK_SESSION ≠ 0
             then update.session_id else old.session_id)
      ∧ (endpoint_event_info (some old) update).params
          = (if update.change_mask &&& PW_ENDPOINT_CHANGE_MASK_PARAMS ≠ 0
             then update.params else old.params)
      ∧ (endpoint_event_info (some old) update).props
          = (if update.change_mask &&& PW_ENDPOINT_CHANGE_MASK_PROPS ≠ 0
             then update.props else old.props)
      ∧ (endpoint_event_info (some old) update).id = old.id
      ∧ (endpoint_event_info (some old) update).name = old.name
      ∧ (endpoint_event_info (some old) update).media_class = old.media_class
      ∧ (endpoint_event_info (some old) update).direction = old.direction
      ∧ (endpoint_event_info (some old) update).flags = old.flags
      ∧ (endpoint_event_info (some old) update).change_mask = old.change_mask)
    ∧ (∀ old update : EndpointInfo,
        update.change_mask = PW_ENDPOINT_CHANGE_MASK_PROPS →
        endpoint_event_info (some old) update = { old with props := update.props })
    ∧ (∀ old update : SessionInfo,
      (session_event_info (some old) update).params
          = (if update.change_mask &&& PW_ENDPOINT_CHANGE_MASK_PARAMS ≠ 0
             then update.params else old.params)
      ∧ (session_event_info (some old) update).props
          = (if update.change_mask &&& PW_ENDPOINT_CHANGE_MASK_PROPS ≠ 0
             then update.props else old.props)
      ∧ (session_event_info (some old) update).id = old.id
      ∧ (session_event_info (some old) update).change_mask = old.change_mask)
    ∧ (∀ old update : SessionInfo,
        update.change_mask = PW_ENDPOINT_CHANGE_MASK_PROPS →
        session_event_info (some old) update = { old with props := update.props }) := by
  refine ⟨?_, ?_, ?_, ?_⟩
  · intro old update
    simp only [endpoint_event_info]
    split_ifs <;> simp_all
  · intro old update h
    simp [endpoint_event_info, h, PW_ENDPOINT_CHANGE_MASK_PROPS,
      PW_ENDPOINT_CHANGE_MASK_STREAMS, PW_ENDPOINT_CHANGE_MASK_SESSION,
      PW_ENDPOINT_CHANGE_MASK_PARAMS,
      show (4 &&& 1 : Nat) = 0 from rfl, show (4 &&& 2 : Nat) = 0 from rfl,
      show (4 &&& 8 : Nat) = 0 from rfl, show (4 &&& 4 : Nat) = 4 from rfl]
  · intro old update
    simp only [session_event_info]
    split_ifs <;> simp_all
  · intro old update h
    simp [session_event_info, h, PW_ENDPOINT_CHANGE_MASK_PROPS,
      PW_ENDPOINT_CHANGE_MASK_PARAMS,
      show (4 &&& 8 : Nat) = 0 from rfl, show (4 &&& 4 : Nat) = 4 from rfl]

/-- C3 witness: a properties-only update on a concrete endpoint snapshot. -/
theorem c3_merge_partiality_witness :
    endpoint_event_info
        (some { id := 7, name := none, media_class := none, direction := 0,
                flags := 0, change_mask := 0, n_streams := 3, session_id := 9,
                params := [(1, 2)], props := none })
        { id := 7, name := none, media_class := none, direction := 0,
          flags := 0, change_mask := PW_ENDPOINT_CHANGE_MASK_PROPS,
          n_streams := 0, session_id := 0, params := [],
          props := some [("k", "v")] }
      = { id := 7, name := none, media_class := none, direction := 0,
          flags := 0, change_mask := 0, n_streams := 3, session_id := 9,
          params := [(1, 2)], props := some [("k", "v")] } :=
  c3_merge_partiality.2.1 _ _ rfl

/-- C4: merging the same update twice in a row (including when the first
merge allocates the snapshot) yields the same snapshot as merging it once,
and after a render by `info_endpoint` the snapshot's change mask is zero. -/
theorem c4_merge_idempotent_mask_cleared :
    (∀ (old : Option EndpointInfo) (u : EndpointInfo),
      endpoint_event_info (some (endpoint_event_info old u)) u
        = endpoint_event_info old u)
    ∧ (∀ info : EndpointInfo, ((info_endpoint info).1).change_mask = 0) := by
  constructor
  · intro old u
    cases old <;>
      · simp only [endpoint_event_info]
        split_ifs <;> rfl
  · intro info
    rfl

/-- C5: for every completion notification, the prompt is redrawn exactly
when the completion's sequence number equals the recorded barrier sequence
`prompt_pending`, and the handler changes no client state — in particular
a completion with a mismatched sequence leaves everything unchanged. -/
theorem c5_prompt_iff_matching_seq (rd : RemoteData) (id : Nat) (seq : Int) :
    ((on_core_done rd id seq).2 ≠ [] ↔ seq = rd.prompt_pending)
    ∧ (on_core_done rd id seq).1 = rd := by
  constructor
  · constructor
    · intro h
      by_contra hne
      rw [on_core_done, if_neg hne] at h
      exact h rfl
    · intro h
      rw [on_core_done, if_pos h]
      simp [show_prompt]
  · rw [on_core_done]
    split <;> rfl

/-- C5 witness: a matching completion on a fresh connection redraws the
prompt. -/
theorem c5_prompt_iff_matching_seq_witness :
    (on_core_done rdInit 0 0).2 ≠ [] :=
  (c5_prompt_iff_matching_seq rdInit 0 0).1.mpr rfl

theorem currentOk_on_core_destroy (st : ConnState) (rid : Nat)
    (h : currentOk st = true) : currentOk (on_core_destroy st rid) = true := by
  cases hc : st.current with
  | none => simp [currentOk, on_core_destroy, hc]
  | some c =>
    by_cases hcr : c = rid
    · subst hcr
      simp [currentOk, on_core_destroy, hc]
    · have hmem : c ∈ st.remotes := by
        simpa [currentOk, hc] using h
      simp [currentOk, on_core_destroy, hc, hcr]
      exact hmem

theorem currentOk_disconnect_core (st : ConnState) (rid : Nat)
    (h : currentOk st = true) : currentOk (disconnect_core st rid) = true := by
  have h1 : currentOk (on_core_destroy st rid) = true :=
    currentOk_on_core_destroy st rid h
  unfold disconnect_core
  by_cases hc : (on_core_destroy st rid).current = none
  · rw [if_pos hc]
    cases hl : (on_core_destroy st rid).remotes.getLast? with
    | none => exact h1
    | some r =>
      simp only [currentOk, decide_eq_true_eq]
      exact List.mem_of_getLast?_eq_some hl
  · rw [if_neg hc]
    exact h1

theorem currentOk_do_disconnect (st : ConnState) (args : List String)
    (res : ConnState) (h : do_disconnect st args = some (Except.ok res))
    (hOk : currentOk st = true) : currentOk res = true := by
  unfold do_disconnect at h
  cases args with
  | nil =>
    cases hc : st.current with
    | none => rw [hc] at h; cases h
    | some rid =>
      rw [hc] at h
      simp only [Option.some.injEq, Except.ok.injEq] at h
      rw [← h]
      exact currentOk_disconnect_core st rid hOk
  | cons tok rest =>
    dsimp only at h
    cases hl : pw_map_lookup st.vars (atoi tok) with
    | none => rw [hl] at h; simp at h
    | some e =>
      rw [hl] at h
      cases e with
      | remote rid =>
        simp only [Option.some.injEq, Except.ok.injEq] at h
        rw [← h]
        exact currentOk_disconnect_core st rid hOk
      | module mid => cases h
      | proxyVar p => cases h

theorem currentOk_do_switch_remote (st : ConnState) (args : List String)
    (res : ConnState) (h : do_switch_remote st args = some (Except.ok res)) :
    currentOk res = true := by
  unfold do_switch_remote at h
  dsimp only at h
  cases hl : pw_map_lookup st.vars (atoi (args.getD 0 (""))) with
  | none => rw [hl] at h; simp at h
  | some e =>
    rw [hl] at h
    cases e with
    | remote rid =>
      simp only [Option.some.injEq, Except.ok.injEq] at h
      rw [← h]
      simp [currentOk]
    | module mid => cases h
    | proxyVar p => cases h

/-- C6: the connection-set invariant — `current` is `None` or a member of
the connection list — is preserved by every operation that edits the set
(core teardown, disconnect, switch, connect); disconnecting the current
connection when exactly one other exists promotes that other connection to
current, and disconnecting the last connection leaves current `None`. -/
theorem c6_current_member_or_none :
    (∀ st rid, currentOk st = true → currentOk (on_core_destroy st rid) = true)
    ∧ (∀ st args res, do_disconnect st args = some (Except.ok res) →
        currentOk st = true → currentOk res = true)
    ∧ (∀ st args res, do_switch_remote st args = some (Except.ok res) →
        currentOk res = true)
    ∧ (∀ st, currentOk (do_connect st) = true)
    ∧ (∀ st c o, st.current = some c → o ≠ c →
        (st.remotes = [c, o] ∨ st.remotes = [o, c]) →
        ∃ res, do_disconnect st [] = some (Except.ok res)
          ∧ res.current = some o)
    ∧ (∀ st c, st.current = some c → st.remotes = [c] →
        ∃ res, do_disconnect st [] = some (Except.ok res)
          ∧ res.current = none) := by
  refine ⟨currentOk_on_core_destroy, currentOk_do_disconnect,
    currentOk_do_switch_remote, ?_, ?_, ?_⟩
  · intro st
    simp [currentOk, do_connect]
  · intro st c o hc hne hrem
    refine ⟨disconnect_core st c, ?_, ?_⟩
    · unfold do_disconnect
      rw [hc]
    · have herase : st.remotes.erase c = [o] := by
        rcases hrem with h1 | h1 <;> rw [h1]
        · exact List.erase_cons_head c [o]
        · rw [List.erase_cons_tail (by simpa using (fun h => hne (by simpa using h)))]
          simp [List.erase_cons_head]
      simp [disconnect_core, on_core_destroy, hc, herase]
  · intro st c hc hrem
    refine ⟨disconnect_core st c, ?_, ?_⟩
    · unfold do_disconnect
      rw [hc]
    · have herase : st.remotes.erase c = [] := by
        rw [hrem]
        exact List.erase_cons_head c []
      simp [disconnect_core, on_core_destroy, hc, herase]

theorem pw_map_next_idx_le (m : PwMap α) : pw_map_next_idx m ≤ m.length := by
  unfold pw_map_next_idx
  cases hf : (List.range m.length).find? (fun i => (pw_map_lookup m i).isNone) with
  | none => exact Nat.le_refl _
  | some i =>
    exact Nat.le_of_lt (List.mem_range.mp (List.mem_of_find?_eq_some hf))

theorem pw_map_lookup_next_idx (m : PwMap α) :
    pw_map_lookup m (pw_map_next_idx m) = none := by
  unfold pw_map_next_idx
  cases hf : (List.range m.length).find? (fun i => (pw_map_lookup m i).isNone) with
  | none => exact pw_map_lookup_eq_none_of_len_le m m.length (Nat.le_refl _)
  | some i =>
    have h1 := List.find?_some hf
    exact Option.isNone_iff_eq_none.mp (by simpa using h1)

theorem insert_new_lookup_self (m : PwMap α) (d : α) :
    pw_map_lookup (pw_map_insert_new m d).2 (pw_map_insert_new m d).1 = some d := by
  unfold pw_map_insert_new
  exact pw_map_lookup_insert_at_self _ _ _ (pw_map_next_idx_le m)

/-- C6 witness: disconnecting the current connection 1 with connection 2
remaining promotes 2 to current. -/
theorem c6_current_member_or_none_witness :
    ∃ res, do_disconnect
        { remotes := [1, 2], current := some 1,
          vars := [none, some (VarEntry.remote 1), some (VarEntry.remote 2)] }
        [] = some (Except.ok res)
      ∧ res.current = some 2 := by
  exact c6_current_member_or_none.2.2.2.2.1
    { remotes := [1, 2], current := some 1,
      vars := [none, some (VarEntry.remote 1), some (VarEntry.remote 2)] }
    1 2 rfl (by decide) (Or.inl rfl)

/-- C7: every successful object-creating command prints
`N = @proxy:M` where N is a fresh client-assigned variable handle (free in
the variable table before, bound to the created object's proxy after) and
M is the created object's id; an arity failure is reported as a quoted
error with no state change. -/
theorem c7_create_prints_fresh_handle (st : ConnState) (a : List String)
    (nid : Nat) :
    (a ≠ [] →
      ∃ N st2,
        do_create_node st a nid
            = Except.ok (st2, toString N ++ " = @proxy:" ++ toString nid)
        ∧ pw_map_lookup st.vars N = none
        ∧ pw_map_lookup st2.vars N = some (VarEntry.proxyVar nid)
        ∧ do_create_device st a nid
            = Except.ok (st2, toString N ++ " = @proxy:" ++ toString nid))
    ∧ (a = [] →
        report st (do_create_node st a nid)
            = (st, ["Error: \"create-node <factory-name> [<properties>]\""])
        ∧ report st (do_create_device st a nid)
            = (st, ["Error: \"create-device <factory-name> [<properties>]\""]))
    ∧ (4 ≤ a.length →
      ∃ N st2,
        do_create_link st a nid
            = Except.ok (st2, toString N ++ " = @proxy:" ++ toString nid)
        ∧ pw_map_lookup st.vars N = none
        ∧ pw_map_lookup st2.vars N = some (VarEntry.proxyVar nid))
    ∧ (a.length < 4 →
        report st (do_create_link st a nid)
            = (st, ["Error: \"create-link <node-id> <port> <node-id> <port> [<properties>]\""])) := by
  have hfresh := pw_map_lookup_next_idx st.vars
  have hself := insert_new_lookup_self st.vars (create_object_result nid)
  refine ⟨?_, ?_, ?_, ?_⟩
  · intro h
    have hlen : ¬ a.length < 1 := by
      cases a with
      | nil => exact absurd rfl h
      | cons x xs => simp
    refine ⟨(pw_map_insert_new st.vars (create_object_result nid)).1,
      { st with vars := (pw_map_insert_new st.vars (create_object_result nid)).2 },
      ?_, hfresh, hself, ?_⟩
    · rw [do_create_node, if_neg hlen]
    · rw [do_create_device, if_neg hlen]
  · intro h
    subst h
    constructor <;> rfl
  · intro h
    have hlen : ¬ a.length < 4 := Nat.not_lt.mpr h
    refine ⟨(pw_map_insert_new st.vars (create_object_result nid)).1,
      { st with vars := (pw_map_insert_new st.vars (create_object_result nid)).2 },
      ?_, hfresh, hself⟩
    rw [do_create_link, if_neg hlen]
  · intro h
    have he : do_create_link st a nid = Except.error
        ("create-link <node-id> <port> <node-id> <port> [<properties>]") := by
      rw [do_create_link, if_pos h]
    rw [he]
    rfl

/-- C7 witness: `create-node dummy-factory` on a fresh connection set
prints handle 0 bound to the created object's id 42. -/
theorem c7_create_prints_fresh_handle_witness :
    ∃ N st2,
      do_create_node
          { remotes := [0], current := some 0,
            vars := [some (VarEntry.remote 0)] }
          ["dummy-factory"] 42
        = Except.ok (st2, toString N ++ " = @proxy:" ++ toString 42)
      ∧ pw_map_lookup ([some (VarEntry.remote 0)] : PwMap VarEntry) N = none
      ∧ pw_map_lookup st2.vars N = some (VarEntry.proxyVar 42) := by
  obtain ⟨N, st2, h1, h2, h3, _⟩ :=
    (c7_create_prints_fresh_handle
      { remotes := [0], current := some 0, vars := [some (VarEntry.remote 0)] }
      ["dummy-factory"] 42).1 (by simp)
  exact ⟨N, st2, h1, h2, h3⟩

set_option maxHeartbeats 3200000 in
theorem bindLookup_none_iff (t : String) :
    bindLookup t = none ↔ t ∉ supportedTypes := by
  constructor
  · intro hb hmem
    simp only [supportedTypes, List.mem_cons, List.not_mem_nil, or_false] at hmem
    rcases hmem with rfl|rfl|rfl|rfl|rfl|rfl|rfl|rfl|rfl|rfl|rfl <;>
      exact absurd hb (by decide)
  · intro hn
    unfold bindLookup
    split_ifs with h1 h2 h3 h4 h5 h6 h7 h8 h9 h10 h11
    · exact absurd (by rw [h1]; decide) hn
    · exact absurd (by rw [h2]; decide) hn
    · exact absurd (by rw [h3]; decide) hn
    · exact absurd (by rw [h4]; decide) hn
    · exact absurd (by rw [h5]; decide) hn
    · exact absurd (by rw [h6]; decide) hn
    · exact absurd (by rw [h7]; decide) hn
    · exact absurd (by rw [h8]; decide) hn
    · exact absurd (by rw [h9]; decide) hn
    · exact absurd (by rw [h10]; decide) hn
    · exact absurd (by rw [h11]; decide) hn
    · rfl

theorem reg_add_unsupported_unbound (rd : RemoteData) (id p : Nat)
    (t : String) (v : Nat) (props : Option Props)
    (hb : bindLookup t = none) :
    ∃ g, pw_map_lookup (registry_event_global rd id p t v props).1.globals id
        = some g
      ∧ g.proxy = none
      ∧ (registry_event_global rd id p t v props).1.proxies = rd.proxies := by
  simp only [registry_event_global, backfillAux_eq, pw_map_get_size,
    bind_global, hb]
  have hlen : id ≤ (rd.globals ++ List.replicate (id - rd.globals.length)
      (none : Option Global)).length := by
    simp only [List.length_append, List.length_replicate]
    omega
  refine ⟨_, pw_map_lookup_insert_at_self _ _ _ hlen, ?_, ?_⟩ <;> trivial

/-- C8: binding a Global whose type name is not one of the eleven supported
kinds fails with the unsupported-type error, and such a failed bind leaves
the Global stored in the registry unbound (`proxy = none`, proxies
untouched); binding a Global of a supported type succeeds and links Proxy
and Global bidirectionally (the Global records the proxy id, the stored
proxy data points back at the Global's id). -/
theorem c8_bind_type_dispatch (rd : RemoteData) (g : Global) :
    (g.type ∉ supportedTypes →
        bind_global rd g = Except.error ("unsupported type " ++ g.type))
    ∧ (g.type ∈ supportedTypes →
        ∃ rd2 g2 pid pd,
          bind_global rd g = Except.ok (rd2, g2)
          ∧ g2.proxy = some pid
          ∧ g2.id = g.id
          ∧ g2.type = g.type
          ∧ pw_map_lookup rd2.proxies pid = some pd
          ∧ pd.global = some g.id)
    ∧ (∀ id p t v props, bindLookup t = none →
        ∃ g0, pw_map_lookup
            (registry_event_global rd id p t v props).1.globals id = some g0
          ∧ g0.proxy = none
          ∧ (registry_event_global rd id p t v props).1.proxies
              = rd.proxies) := by
  refine ⟨?_, ?_, fun id p t v props hb =>
    reg_add_unsupported_unbound rd id p t v props hb⟩
  · intro h
    have hb : bindLookup g.type = none := (bindLookup_none_iff _).mpr h
    rw [bind_global, hb]
  · intro h
    cases hb : bindLookup g.type with
    | none => exact absurd ((bindLookup_none_iff _).mp hb) (not_not_intro h)
    | some kind =>
      refine ⟨{ rd with
          proxies := (pw_map_insert_new rd.proxies
            { global := some g.id, kind := kind }).2,
          globals := pw_map_insert_at rd.globals g.id
            (some { g with proxy := some (pw_map_insert_new rd.proxies
              { global := some g.id, kind := kind }).1 }) },
        { g with proxy := some (pw_map_insert_new rd.proxies
            { global := some g.id, kind := kind }).1 },
        (pw_map_insert_new rd.proxies
          { global := some g.id, kind := kind }).1,
        { global := some g.id, kind := kind },
        ?_, rfl, rfl, rfl, ?_, rfl⟩
      · rw [bind_global, hb]
      · exact insert_new_lookup_self _ _

/-- C8 witness: a session-manager metadata type is rejected unbound, a
Client global binds with a bidirectional link. -/
theorem c8_bind_type_dispatch_witness :
    bind_global rdInit
        { id := 3, permissions := 0, version := 0,
          type := "PipeWire:Interface:Metadata", proxy := none,
          info_pending := false, properties := none }
      = Except.error ("unsupported type PipeWire:Interface:Metadata")
    ∧ ∃ rd2 g2 pid pd,
        bind_global rdInit
            { id := 4, permissions := 0, version := 0,
              type := PW_TYPE_INTERFACE_Client, proxy := none,
              info_pending := false, properties := none }
          = Except.ok (rd2, g2)
        ∧ g2.proxy = some pid
        ∧ pw_map_lookup rd2.proxies pid = some pd
        ∧ pd.global = some 4 := by
  constructor
  · exact (c8_bind_type_dispatch rdInit _).1 (by decide)
  · obtain ⟨rd2, g2, pid, pd, h1, h2, _, _, h5, h6⟩ :=
      (c8_bind_type_dispatch rdInit
        { id := 4, permissions := 0, version := 0,
          type := PW_TYPE_INTERFACE_Client, proxy := none,
          info_pending := false, properties := none }).2.1 (by decide)
    exact ⟨rd2, g2, pid, pd, h1, h2, h5, h6⟩

/-- C10: with no argument, `do_disconnect` dereferences the current
connection unconditionally — it is total exactly under the precondition
that `current` is not `None`; with an explicit handle argument the
unknown-handle branch returns an error instead, with no such
precondition. -/
theorem c10_disconnect_needs_current (st : ConnState) :
    (st.current = none → do_disconnect st [] = none)
    ∧ (∀ rid, st.current = some rid →
        do_disconnect st [] = some (Except.ok (disconnect_core st rid)))
    ∧ (∀ tok rest, pw_map_lookup st.vars (atoi tok) = none →
        do_disconnect st (tok :: rest)
          = some (Except.error
              ("Remote " ++ toString (atoi tok) ++ " does not exist"))) := by
  refine ⟨?_, ?_, ?_⟩
  · intro h
    simp [do_disconnect, h]
  · intro rid h
    simp [do_disconnect, h]
  · intro tok rest h
    simp [do_disconnect, h]

/-- C10 witness: no-argument disconnect with no current connection is the
NULL dereference; an explicit unknown handle is a plain error. -/
theorem c10_disconnect_needs_current_witness :
    do_disconnect { remotes := [], current := none, vars := [] } [] = none
    ∧ do_disconnect { remotes := [], current := none, vars := [] } ["5"]
        = some (Except.error ("Remote " ++ toString (atoi ("5"))
            ++ " does not exist")) := by
  constructor
  · exact (c10_disconnect_needs_current _).1 rfl
  · exact (c10_disconnect_needs_current _).2.2 ("5") [] rfl

/-- C9 counterexample: the claim says switch-remote fails with a
wrong-type error on a handle not bound to a connection; on a state whose
variable 0 holds a loaded module (reachable via `load-module`),
switch-remote resolves the handle, performs no type check and dereferences
the module as a connection (undefined behaviour, `none`) instead of
returning any error. -/
theorem c9_counterexample :
    pw_map_lookup ([some (VarEntry.module 7)] : PwMap VarEntry) 0
      = some (VarEntry.module 7)
    ∧ do_switch_remote
        { remotes := [], current := none, vars := [some (VarEntry.module 7)] }
        [] = none := by
  constructor <;> rfl

/-- C9 (amended): handlers resolve numeric ids through the Global Registry
or the Variable table and fail with an unknown-global / unknown-remote
error when the id is absent; permissions and get-permissions additionally
fail with a wrong-type error on any global whose type is not Client; but
switch-remote and disconnect perform no type check on a resolved
variable-table entry — a handle bound to a non-connection object is
dereferenced as a connection (undefined behaviour), not rejected with an
error. -/
theorem c9_resolution_and_type_checks (rd : RemoteData) (st : ConnState)
    (a : List String) :
    (3 ≤ a.length →
      pw_map_lookup rd.globals (atoi (a.getD 0 (""))) = none →
      do_permissions rd a = Except.error
        ("permissions: unknown global " ++ toString (atoi (a.getD 0 ("")))))
    ∧ (∀ g, 3 ≤ a.length →
        pw_map_lookup rd.globals (atoi (a.getD 0 (""))) = some g →
        g.type ≠ PW_TYPE_INTERFACE_Client →
        do_permissions rd a = Except.error
          ("object " ++ toString (atoi (a.getD 0 (""))) ++ " is not a client"))
    ∧ (1 ≤ a.length →
      pw_map_lookup rd.globals (atoi (a.getD 0 (""))) = none →
      do_get_permissions rd a = Except.error
        ("get-permissions: unknown global " ++ toString (atoi (a.getD 0 ("")))))
    ∧ (∀ g, 1 ≤ a.length →
        pw_map_lookup rd.globals (atoi (a.getD 0 (""))) = some g →
        g.type ≠ PW_TYPE_INTERFACE_Client →
        do_get_permissions rd a = Except.error
          ("object " ++ toString (atoi (a.getD 0 (""))) ++ " is not a client"))
    ∧ (pw_map_lookup st.vars (atoi (a.getD 0 (""))) = none →
        do_switch_remote st a = some (Except.error
          ("Remote " ++ toString (atoi (a.getD 0 (""))) ++ " does not exist")))
    ∧ (∀ e, pw_map_lookup st.vars (atoi (a.getD 0 (""))) = some e →
        (∀ rid, e ≠ VarEntry.remote rid) →
        do_switch_remote st a = none)
    ∧ (∀ tok rest e, pw_map_lookup st.vars (atoi tok) = some e →
        (∀ rid, e ≠ VarEntry.remote rid) →
        do_disconnect st (tok :: rest) = none) := by
  refine ⟨?_, ?_, ?_, ?_, ?_, ?_, ?_⟩
  · intro hlen hl
    rw [do_permissions, if_neg (Nat.not_lt.mpr hlen)]
    dsimp only
    rw [hl]
  · intro g hlen hl hne
    rw [do_permissions, if_neg (Nat.not_lt.mpr hlen)]
    dsimp only
    rw [hl]
    dsimp only
    rw [if_pos hne]
  · intro hlen hl
    rw [do_get_permissions, if_neg (Nat.not_lt.mpr hlen)]
    dsimp only
    rw [hl]
  · intro g hlen hl hne
    rw [do_get_permissions, if_neg (Nat.not_lt.mpr hlen)]
    dsimp only
    rw [hl]
    dsimp only
    rw [if_pos hne]
  · intro hl
    rw [do_switch_remote]
    rw [hl]
  · intro e hl hne
    rw [do_switch_remote]
    rw [hl]
    cases e with
    | remote rid => exact absurd rfl (hne rid)
    | module mid => rfl
    | proxyVar p => rfl
  · intro tok rest e hl hne
    rw [do_disconnect]
    rw [hl]
    cases e with
    | remote rid => exact absurd rfl (hne rid)
    | module mid => rfl
    | proxyVar p => rfl

/-- C9 amended-claim witness: permissions on a non-Client global fails
with the wrong-type error. -/
theorem c9_resolution_and_type_checks_witness :
    do_permissions
        { id := 0, name := none, prompt_pending := 0,
          globals :=
            [some
              { id := 0, permissions := 0, version := 0,
                type := PW_TYPE_INTERFACE_Node, proxy := none,
                info_pending := false, properties := none }],
          proxies := [] }
        ["0", "3", "7"]
      = Except.error ("object " ++ toString (atoi ("0")) ++ " is not a client") := by
  exact (c9_resolution_and_type_checks
      { id := 0, name := none, prompt_pending := 0,
        globals :=
          [some
            { id := 0, permissions := 0, version := 0,
              type := PW_TYPE_INTERFACE_Node, proxy := none,
              info_pending := false, properties := none }],
        proxies := [] }
      { remotes := [], current := none, vars := [] }
      ["0", "3", "7"]).2.1
    { id := 0, permissions := 0, version := 0,
      type := PW_TYPE_INTERFACE_Node, proxy := none,
      info_pending := false, properties := none }
    (by decide) (by decide) (by decide)

end PwCli
